import Mathlib

/-
Verification development for the cache-aside gateway in this repository.
The repository holds two variants of the same Express application:
src/index.js (suffix `_index` below) and src/unnamed/part_000 (suffix
`_p0` below).  Both are embedded; all definitions are translated from
the JavaScript source.  JavaScript machine-level collaborators that are
not repository code (the JSON.parse builtin, the object store transport,
the upstream HTTP client) are modelled as explicit parameters: a decode
function `String -> Option JSValue`, a `StoreState`, a `FetchOutcome`.
-/

/-! Model of JavaScript runtime values (the shapes that flow through the
gateway: JSON payloads, strings, numbers, booleans, null). -/

inductive JSValue where
  | jnull
  | jbool (b : Bool)
  | jnum (n : Int)
  | jstr (s : String)
  | jarr (elems : List JSValue)
  | jobj (fields : List (String × JSValue))

/-- JavaScript `typeof x === 'object'` test: objects, arrays and null. -/
def typeofIsObject : JSValue → Bool
  | .jnull => true
  | .jarr _ => true
  | .jobj _ => true
  | _ => false

/-- JavaScript truthiness of a value. -/
def truthy : JSValue → Bool
  | .jnull => false
  | .jbool b => b
  | .jnum n => n != 0
  | .jstr s => s != ("")
  | .jarr _ => true
  | .jobj _ => true

/-- First-match field lookup in an object literal. -/
def lookupField : List (String × JSValue) → String → Option JSValue
  | [], _ => none
  | (k0, v) :: t, k => if k0 = k then some v else lookupField t k

/-- JavaScript optional property access `x?.k`: `none` when `x` is not an
object or lacks the field. -/
def jsGetField : JSValue → String → Option JSValue
  | .jobj fields, k => lookupField fields k
  | _, _ => none

/-! String utilities mirroring the JavaScript string methods the source
uses (`includes`, `startsWith`, `toLowerCase`, `trim`, `split`, `join`). -/

/-- JavaScript `hay.includes(needle)`: substring containment test. -/
def listContains (hay needle : List Char) : Bool :=
  match hay with
  | [] => needle.isEmpty
  | c :: t => needle.isPrefixOf (c :: t) || listContains t needle

/-- JavaScript `hay.includes(needle)` on strings. -/
def strIncludes (hay needle : String) : Bool :=
  listContains hay.data needle.data

/-- JavaScript `s.startsWith(p)`. -/
def jsStartsWith (s p : String) : Bool :=
  p.data.isPrefixOf s.data

/-- JavaScript `s.toLowerCase()` (ASCII range, which is what the source
feeds it: URLs, storage keys, query values). -/
def lowerStr (s : String) : String :=
  ⟨s.data.map Char.toLower⟩

/-- Whitespace stripped by JavaScript `trim`. -/
def isJsWs (c : Char) : Bool :=
  c == (' ') || c == Char.ofNat 9 || c == Char.ofNat 10 ||
  c == Char.ofNat 13 || c == Char.ofNat 12 || c == Char.ofNat 11

/-- JavaScript `s.trim()`. -/
def jsTrim (s : String) : String :=
  ⟨((s.data.dropWhile isJsWs).reverse.dropWhile isJsWs).reverse⟩

/-- JavaScript array join with a separator. -/
def joinWith (sep : String) : List String → String
  | [] => ("")
  | x :: xs => xs.foldl (fun acc y => acc ++ sep ++ y) x

/-- Last segment of `url.split('.')` (the whole string when no dot):
running segment is reset at each dot. -/
def lastDotSeg (s : String) : String :=
  ⟨s.data.foldl (fun acc c => if c == ('.') then [] else acc ++ [c]) []⟩

/-- JavaScript `s.split('?')[0]`. -/
def beforeQuery (s : String) : String :=
  ⟨s.data.takeWhile (fun c => c != ('?'))⟩

/-- Does `p` hold at some position (suffix) of the list?  Used to embed an
unanchored regular-expression search. -/
def anyPos (p : List Char → Bool) : List Char → Bool
  | [] => p []
  | c :: t => p (c :: t) || anyPos p t

/-- Match of `.ext` at the head of `h`, followed by a question mark or the
end of the string, embedding one alternative of the part_000 regex
pattern dot-(jpg|jpeg|png|gif|webp)-(questionmark-or-end). -/
def extHere (ext : String) (h : List Char) : Bool :=
  let pat := ('.') :: ext.data
  pat.isPrefixOf h &&
    (match h.drop pat.length with
     | [] => true
     | c :: _ => c == ('?'))

/-! Percent-encoding, embedding the JavaScript builtins the source calls:
encodeURIComponent (part_000 upstream URL) and URLSearchParams
serialization (multi-parameter upstream URL). -/

/-- UTF-8 bytes of a character (as natural numbers below 256). -/
def utf8Bytes (c : Char) : List Nat :=
  let n := c.toNat
  if n < 128 then [n]
  else if n < 2048 then [192 + n / 64, 128 + n % 64]
  else if n < 65536 then [224 + n / 4096, 128 + (n / 64) % 64, 128 + n % 64]
  else [240 + n / 262144, 128 + (n / 4096) % 64, 128 + (n / 64) % 64, 128 + n % 64]

/-- Uppercase hexadecimal digit. -/
def hexDigit (n : Nat) : Char :=
  if n < 10 then Char.ofNat (48 + n) else Char.ofNat (55 + n)

/-- Percent-escape of one byte. -/
def percentByte (b : Nat) : List Char :=
  [('%'), hexDigit (b / 16), hexDigit (b % 16)]

/-- Characters encodeURIComponent leaves unescaped. -/
def isURIUnreserved (c : Char) : Bool :=
  c.isAlphanum || c == ('-') || c == ('_') || c == ('.') || c == ('!') ||
  c == ('~') || c == ('*') || c == Char.ofNat 39 || c == ('(') || c == (')')

/-- Encoding of one character under encodeURIComponent. -/
def encChar (c : Char) : List Char :=
  if isURIUnreserved c then [c]
  else ((utf8Bytes c).map percentByte).flatten

/-- JavaScript `encodeURIComponent`. -/
def encodeURIComponent (s : String) : String :=
  ⟨(s.data.map encChar).flatten⟩

/-- Characters a percent-encoded component may contain: unreserved
characters and the percent sign (hex digits are alphanumeric). -/
def uriSafe (c : Char) : Bool :=
  isURIUnreserved c || c == ('%')

/-- Characters URLSearchParams serialization leaves unescaped. -/
def isUSPSafe (c : Char) : Bool :=
  c.isAlphanum || c == ('*') || c == ('-') || c == ('.') || c == ('_')

/-- Encoding of one character under URLSearchParams serialization
(space becomes a plus sign). -/
def uspEncChar (c : Char) : List Char :=
  if c == (' ') then [('+')]
  else if isUSPSafe c then [c]
  else ((utf8Bytes c).map percentByte).flatten

/-- URLSearchParams `toString` encoding of one value. -/
def uspEncode (s : String) : String :=
  ⟨(s.data.map uspEncChar).flatten⟩

/-! Object-store model.  The Firebase bucket is an external collaborator:
a listing of named objects with a store-recorded creation time and a
payload.  `StoreState` covers the three situations the source
distinguishes: no bucket configured, a bucket whose operations throw, and
a working bucket holding a file list (in the store listing order). -/

structure StoredFile where
  name : String
  timeCreated : Nat
  content : String
deriving DecidableEq

inductive StoreState where
  | absent
  | failing
  | avail (files : List StoredFile)
deriving DecidableEq

/-- Embeds `bucket.getFiles with a name-prefix filter`. -/
def filterByPre (files : List StoredFile) (pre : String) : List StoredFile :=
  files.filter (fun f => pre.data.isPrefixOf f.name.data)

/-- Number of store listings a cache check performs: none when the bucket
handle is absent (early return), one attempt otherwise. -/
def listingsOf : StoreState → Nat
  | .absent => 0
  | _ => 1

/-- Embeds the sort-descending-by-timeCreated-then-take-first selection of
`checkStorageCache` (JavaScript stable sort with comparator timeB - timeA
followed by `[0]`): the first listed file among those with maximal
`timeCreated`. -/
def pickBest (best : StoredFile) : List StoredFile → StoredFile
  | [] => best
  | g :: t => pickBest (if g.timeCreated > best.timeCreated then g else best) t

/-- Head of the descending-by-timeCreated stable sort, `none` on an empty
list. -/
def pickLatest : List StoredFile → Option StoredFile
  | [] => none
  | f :: fs => some (pickBest f fs)

/-! Key derivation (generateStoragePath / generateMediaPath). -/

/-- Strip one leading underscore (JavaScript replace of the anchored
single-underscore pattern). -/
def stripLeadUnd (s : String) : String :=
  match s.data with
  | c :: t => if c = ('_') then ⟨t⟩ else s
  | [] => s

/-- Sanitized endpoint: every slash becomes an underscore, then one
leading underscore is stripped. -/
def sanitizeEndpoint (ep : String) : String :=
  stripLeadUnd ⟨ep.data.map (fun c => if c == ('/') then ('_') else c)⟩

/-- Sanitized parameter value: characters outside A-Za-z0-9 become
underscores. -/
def sanitizeParamValue (pv : String) : String :=
  ⟨pv.data.map (fun c => if c.isAlphanum then c else ('_'))⟩

/-- Route prefix directory used by both cache lookup and persistence. -/
def cachePre (ep : String) : String :=
  ("consultas/") ++ sanitizeEndpoint ep ++ ("/")

/-- Embeds `generateStoragePath` (`Date.now()` is the `now` argument). -/
def generateStoragePath (ep pn pv : String) (now : Nat) : String :=
  cachePre ep ++ pn ++ ("_") ++ sanitizeParamValue pv ++ ("_") ++ Nat.repr now ++ (".json")

/-- Embeds `generateMediaPath`. -/
def generateMediaPath (ep pn pv ext : String) (now : Nat) : String :=
  cachePre ep ++ ("media/") ++ pn ++ ("_") ++ sanitizeParamValue pv ++ ("_") ++ Nat.repr now ++ (".") ++ ext

/-! Cache lookup (checkStorageCache), both variants. -/

/-- Matching filter of src/index.js checkStorageCache: the file name
contains `paramName_paramValue_` or contains `paramValue` (case
sensitive, name only). -/
def codeMatch_index (pn pv : String) (f : StoredFile) : Bool :=
  strIncludes f.name (pn ++ ("_") ++ pv ++ ("_")) || strIncludes f.name pv

/-- Matching filter of part_000 checkStorageCache: the lowercased file
name contains the lowercased `paramValue` (name only). -/
def codeMatch_p0 (pv : String) (f : StoredFile) : Bool :=
  strIncludes (lowerStr f.name) (lowerStr pv)

/-- Files listed under the route prefix then kept by the index.js
matching filter. -/
def matching_index (files : List StoredFile) (ep pn pv : String) : List StoredFile :=
  (filterByPre files (cachePre ep)).filter (fun f => codeMatch_index pn pv f)

/-- Listing of part_000 checkStorageCache: prefix filter capped at 50
entries (getFiles maxResults). -/
def listed_p0 (files : List StoredFile) (ep : String) : List StoredFile :=
  (filterByPre files (cachePre ep)).take 50

/-- Files kept by the part_000 matching filter. -/
def matching_p0 (files : List StoredFile) (ep pv : String) : List StoredFile :=
  (listed_p0 files ep).filter (fun f => codeMatch_p0 pv f)

/-- Decode step of src/index.js checkStorageCache: JSON.parse the payload;
on failure return the raw payload wrapped with the storage reference. -/
def decode_index (parse : String → Option JSValue) (f : StoredFile) : JSValue :=
  match parse f.content with
  | some v => v
  | none => .jobj [(("storageReference"), .jstr f.name), (("rawContent"), .jstr f.content)]

/-- Does the trimmed payload start with a brace or a bracket (the
part_000 pre-check before JSON.parse)? -/
def jsonLead (c : String) : Bool :=
  jsStartsWith (jsTrim c) ("\x7b") || jsStartsWith (jsTrim c) ("[")

/-- Decode step of part_000 checkStorageCache: JSON-looking payloads are
parsed (a parse failure is caught and yields null, a cache miss); other
payloads are returned wrapped as a cached-text object. -/
def decode_p0 (parse : String → Option JSValue) (f : StoredFile) : Option JSValue :=
  if jsonLead f.content then
    match parse f.content with
    | some v => some v
    | none => none
  else
    some (.jobj [(("success"), .jbool true),
                 (("message"), .jstr ("Resultado desde caché")),
                 (("data"), .jstr f.content),
                 (("storageReference"), .jstr f.name)])

/-- JavaScript null collapsed into the Option model.  The Option return
value of the lookups stands for the JavaScript return value with none
for null: the source returns the parsed content directly, and a parsed
JSON null is the very same value as the null miss sentinel, so it is
none here. -/
def nullToNone : JSValue → Option JSValue
  | .jnull => none
  | v => some v

/-- Embeds src/index.js checkStorageCache: absent bucket or a throwing
listing give null; otherwise filter, sort by timeCreated descending, take
the first, download and decode.  A payload decoding to JSON null makes
the source return null — indistinguishable from a miss — hence the
nullToNone collapse. -/
def checkStorageCache_index (parse : String → Option JSValue) (store : StoreState)
    (ep pn pv : String) : Option JSValue :=
  match store with
  | .absent => none
  | .failing => none
  | .avail files =>
    match pickLatest (matching_index files ep pn pv) with
    | some f => nullToNone (decode_index parse f)
    | none => none

/-- Embeds part_000 checkStorageCache (paramName is accepted but unused
by its filter, as in the source). -/
def checkStorageCache_p0 (parse : String → Option JSValue) (store : StoreState)
    (ep pn pv : String) : Option JSValue :=
  match store with
  | .absent => none
  | .failing => none
  | .avail files =>
    if (listed_p0 files ep).isEmpty then none
    else
      match pickLatest (matching_p0 files ep pv) with
      | some f => decode_p0 parse f
      | none => none

/-! Result classification and persistence. -/

inductive PersistAction where
  | saveText (data : JSValue)
  | saveMedia (url : String) (kind : String)
  | skip

/-- Image test of src/index.js: substring containment of the four
extensions (no webp) in the lowercased result. -/
def imgTest_index (l : String) : Bool :=
  strIncludes l (".jpg") || strIncludes l (".jpeg") ||
  strIncludes l (".png") || strIncludes l (".gif")

/-- Image test of part_000: regex match of dot-extension followed by a
question mark or the end of the string, webp included. -/
def imgTest_p0 (l : String) : Bool :=
  anyPos (fun h =>
    [("jpg"), ("jpeg"), ("png"), ("gif"), ("webp")].any (fun e => extHere e h)) l.data

/-- Classification step of the src/index.js persistence callback. -/
def classify_index (v : JSValue) : PersistAction :=
  if typeofIsObject v then .saveText v
  else
    match v with
    | .jstr s =>
      if jsStartsWith s ("http") then
        if imgTest_index (lowerStr s) then .saveMedia s ("image")
        else if strIncludes (lowerStr s) (".pdf") then .saveMedia s ("pdf")
        else .saveText (.jobj [(("url"), .jstr s)])
      else .saveText (.jobj [(("text"), .jstr s)])
    | _ => .skip

/-- Classification step of the part_000 persistence callback (truthiness
guard on the object branch, anchored image regex). -/
def classify_p0 (v : JSValue) : PersistAction :=
  if truthy v && typeofIsObject v then .saveText v
  else
    match v with
    | .jstr s =>
      if jsStartsWith s ("http") then
        if imgTest_p0 (lowerStr s) then .saveMedia s ("image")
        else if strIncludes (lowerStr s) (".pdf") then .saveMedia s ("pdf")
        else .saveText (.jobj [(("url"), .jstr s)])
      else .saveText (.jobj [(("text"), .jstr s)])
    | _ => .skip

/-- Extension chosen by src/index.js saveMediaFromUrl: for images, the
text after the last dot and before any question mark (jpg when empty);
pdf for the pdf content type; bin otherwise. -/
def mediaExt_index (url kind : String) : String :=
  if strIncludes kind ("image") then
    let seg := beforeQuery (lastDotSeg url)
    if seg = ("") then ("jpg") else seg
  else if strIncludes kind ("pdf") then ("pdf")
  else ("bin")

/-- Extension chosen by part_000 saveMediaFromUrl: first containment
match in source order jpg/jpeg, png, gif, pdf, webp; bin otherwise. -/
def mediaExt_p0 (url : String) : String :=
  let l := lowerStr url
  if strIncludes l (".jpg") || strIncludes l (".jpeg") then ("jpg")
  else if strIncludes l (".png") then ("png")
  else if strIncludes l (".gif") then ("gif")
  else if strIncludes l (".pdf") then ("pdf")
  else if strIncludes l (".webp") then ("webp")
  else ("bin")

/-- Outcome flags of one persistence run: does the store write succeed,
does the media download succeed, and the Date.now() timestamp. -/
structure PersistEnv where
  writeOk : Bool
  downloadOk : Bool
  now : Nat
deriving DecidableEq

/-- Embeds saveTextToStorage: null when the bucket is absent or the write
fails, otherwise the stored path. -/
def saveTextToStorage_run (store : StoreState) (env : PersistEnv)
    (ep pn pv : String) : Option String :=
  match store with
  | .absent => none
  | _ => if env.writeOk then some (generateStoragePath ep pn pv env.now) else none

/-- Embeds src/index.js saveMediaFromUrl: null when the bucket is absent
or the download or write fails, otherwise the stored media path. -/
def saveMediaFromUrl_run_index (store : StoreState) (env : PersistEnv)
    (ep pn pv url kind : String) : Option String :=
  match store with
  | .absent => none
  | _ =>
    if env.downloadOk && env.writeOk then
      some (generateMediaPath ep pn pv (mediaExt_index url kind) env.now)
    else none

/-- Embeds part_000 saveMediaFromUrl. -/
def saveMediaFromUrl_run_p0 (store : StoreState) (env : PersistEnv)
    (ep pn pv url : String) : Option String :=
  match store with
  | .absent => none
  | _ =>
    if env.downloadOk && env.writeOk then
      some (generateMediaPath ep pn pv (mediaExt_p0 url) env.now)
    else none

/-- The deferred persistence callback of src/index.js handleWithCache:
classify the fresh result then run the matching save; all failures are
swallowed (null). -/
def runPersist_index (store : StoreState) (env : PersistEnv)
    (ep pn pv : String) (v : JSValue) : Option String :=
  match classify_index v with
  | .saveText _ => saveTextToStorage_run store env ep pn pv
  | .saveMedia url kind => saveMediaFromUrl_run_index store env ep pn pv url kind
  | .skip => none

/-- The deferred persistence callback of part_000 handleWithCache. -/
def runPersist_p0 (store : StoreState) (env : PersistEnv)
    (ep pn pv : String) (v : JSValue) : Option String :=
  match classify_p0 v with
  | .saveText _ => saveTextToStorage_run store env ep pn pv
  | .saveMedia url _ => saveMediaFromUrl_run_p0 store env ep pn pv url
  | .skip => none

/-! Upstream fetch outcome and error mapping. -/

structure ErrResponse where
  status : Nat
  data : JSValue

structure UpstreamError where
  response : Option ErrResponse
  code : Option String
  message : String

inductive FetchOutcome where
  | ok (data : JSValue)
  | err (e : UpstreamError)

/-- Detalle value of the src/index.js error body: the truthiness chain
upstream-data-message, then the error message, then the fixed text. -/
def detalle_index (e : UpstreamError) : JSValue :=
  let fb : JSValue :=
    if e.message != ("") then .jstr e.message else .jstr ("Error en la consulta")
  match e.response with
  | some r =>
    match jsGetField r.data ("message") with
    | some mv => if truthy mv then mv else fb
    | none => fb
  | none => fb

/-- Error mapping of src/index.js handleWithCache: upstream status when
truthy (500 otherwise), fixed message, detalle from the truthiness
chain. -/
def handleError_index (e : UpstreamError) : Nat × JSValue :=
  let sc : Nat :=
    match e.response with
    | some r => if r.status = 0 then 500 else r.status
    | none => 500
  (sc, .jobj [(("success"), .jbool false),
              (("message"), .jstr ("Error en la consulta")),
              (("detalle"), detalle_index e)])

/-- Error mapping of part_000 handleWithCache: upstream status when a
response is present; 504 on ECONNABORTED; 503 on ENOTFOUND; 500
otherwise; body carries message, detalle, endpoint and the parameter. -/
def handleError_p0 (ep pn pv : String) (e : UpstreamError) : Nat × JSValue :=
  let scMsg : Nat × JSValue :=
    match e.response with
    | some r =>
      (r.status,
       match jsGetField r.data ("message") with
       | some mv =>
         if truthy mv then mv
         else .jstr (("Error ") ++ Nat.repr r.status ++ (" del servidor"))
       | none => .jstr (("Error ") ++ Nat.repr r.status ++ (" del servidor")))
    | none =>
      if e.code = some ("ECONNABORTED") then
        (504, .jstr ("Timeout en la consulta a la API externa"))
      else if e.code = some ("ENOTFOUND") then
        (503, .jstr ("No se pudo conectar con la API externa"))
      else (500, .jstr ("Error en la consulta"))
  let det : JSValue :=
    match e.response with
    | some r => if truthy r.data then r.data else .jstr e.message
    | none => .jstr e.message
  (scMsg.1, .jobj [(("success"), .jbool false),
                   (("message"), scMsg.2),
                   (("detalle"), det),
                   (("endpoint"), .jstr ep),
                   (("param"), .jobj [(("name"), .jstr pn), (("value"), .jstr pv)])])

/-- Upstream URL built by src/index.js handleWithCache: raw interpolation
of the parameter value. -/
def buildUrl_index (base ap pn pv : String) : String :=
  base ++ ap ++ ("?") ++ pn ++ ("=") ++ pv

/-- Upstream URL built by part_000 handleWithCache: the parameter value
goes through encodeURIComponent. -/
def buildUrl_p0 (base ap pn pv : String) : String :=
  base ++ ap ++ ("?") ++ pn ++ ("=") ++ encodeURIComponent pv

/-! The request coordinator (handleWithCache), observable trace. -/

/-- Truthiness gate of the coordinators on the cache-lookup result: the
source tests the returned value itself, not mere presence, so a falsy
cached result (null, false, 0, empty string) falls through to the
upstream fetch. -/
def cacheGate : Option JSValue → Option JSValue
  | some v => if truthy v then some v else none
  | none => none

structure HandleResult where
  status : Nat
  body : JSValue
  upstreamGets : Nat
  storeListings : Nat
  requestedUrl : Option String
  persistResult : Option (Option String)

/-- Embeds src/index.js handleWithCache: cache check gated on the
truthiness of the returned value, then on a miss one upstream GET; on
success respond 200 with the raw payload and schedule the persistence
callback; on failure respond with the mapped error. -/
def handleWithCache_index (parse : String → Option JSValue) (store : StoreState)
    (base ep ap pn pv : String) (fetch : FetchOutcome) (env : PersistEnv) : HandleResult :=
  match cacheGate (checkStorageCache_index parse store ep pn pv) with
  | some v =>
    { status := 200, body := v, upstreamGets := 0, storeListings := listingsOf store,
      requestedUrl := none, persistResult := none }
  | none =>
    match fetch with
    | .ok d =>
      { status := 200, body := d, upstreamGets := 1, storeListings := listingsOf store,
        requestedUrl := some (buildUrl_index base ap pn pv),
        persistResult := some (runPersist_index store env ep pn pv d) }
    | .err e =>
      { status := (handleError_index e).1, body := (handleError_index e).2,
        upstreamGets := 1, storeListings := listingsOf store,
        requestedUrl := some (buildUrl_index base ap pn pv), persistResult := none }

/-- Embeds part_000 handleWithCache (same truthiness gate on the cached
result). -/
def handleWithCache_p0 (parse : String → Option JSValue) (store : StoreState)
    (base ep ap pn pv : String) (fetch : FetchOutcome) (env : PersistEnv) : HandleResult :=
  match cacheGate (checkStorageCache_p0 parse store ep pn pv) with
  | some v =>
    { status := 200, body := v, upstreamGets := 0, storeListings := listingsOf store,
      requestedUrl := none, persistResult := none }
  | none =>
    match fetch with
    | .ok d =>
      { status := 200, body := d, upstreamGets := 1, storeListings := listingsOf store,
        requestedUrl := some (buildUrl_p0 base ap pn pv),
        persistResult := some (runPersist_p0 store env ep pn pv d) }
    | .err e =>
      { status := (handleError_p0 ep pn pv e).1, body := (handleError_p0 ep pn pv e).2,
        upstreamGets := 1, storeListings := listingsOf store,
        requestedUrl := some (buildUrl_p0 base ap pn pv), persistResult := none }

/-- Client-visible response part of a trace. -/
def respOf (r : HandleResult) : Nat × JSValue :=
  (r.status, r.body)

/-! Parameter selection and the generic route handlers. -/

/-- Query string as delivered by Express: key-value pairs. -/
def getQuery (q : List (String × String)) (k : String) : Option String :=
  (List.find? (fun kv => kv.fst == k) q).map Prod.snd

/-- JavaScript truthiness of `req.query[k]`: present with a non-empty
value. -/
def queryTruthy (q : List (String × String)) (k : String) : Bool :=
  match getQuery q k with
  | some v => v != ("")
  | none => false

/-- Value of `req.query[k]` where the caller knows it is present. -/
def getQueryD (q : List (String × String)) (k : String) : String :=
  (getQuery q k).getD ("")

/-- Embeds the first-truthy-parameter loop of
fetchFromNewAPIWithMultipleParamNames (also inlined in the fisdet
route). -/
def selectParam (q : List (String × String)) : List String → Option (String × String)
  | [] => none
  | n :: ns => if queryTruthy q n then some (n, getQueryD q n) else selectParam q ns

/-- Embeds fetchFromNewAPIWithMultipleParamNames over src/index.js
handleWithCache: reject 400 when no acceptable parameter is truthy,
otherwise run the coordinator with the first one. -/
def fetchFromNewAPIWithMultipleParamNames_index (parse : String → Option JSValue)
    (store : StoreState) (base ep ap : String) (q : List (String × String))
    (names : List String) (fetch : FetchOutcome) (env : PersistEnv) : HandleResult :=
  match selectParam q names with
  | some (n, v) => handleWithCache_index parse store base ep ap n v fetch env
  | none =>
    { status := 400,
      body := .jobj [(("success"), .jbool false),
                     (("message"), .jstr (("Se requiere uno de los siguientes parámetros: ") ++ joinWith (", ") names))],
      upstreamGets := 0, storeListings := 0, requestedUrl := none, persistResult := none }

/-- Embeds fetchFromNewAPIWithMultipleParamNames over part_000
handleWithCache. -/
def fetchFromNewAPIWithMultipleParamNames_p0 (parse : String → Option JSValue)
    (store : StoreState) (base ep ap : String) (q : List (String × String))
    (names : List String) (fetch : FetchOutcome) (env : PersistEnv) : HandleResult :=
  match selectParam q names with
  | some (n, v) => handleWithCache_p0 parse store base ep ap n v fetch env
  | none =>
    { status := 400,
      body := .jobj [(("success"), .jbool false),
                     (("message"), .jstr (("Se requiere uno de los siguientes parámetros: ") ++ joinWith (", ") names))],
      upstreamGets := 0, storeListings := 0, requestedUrl := none, persistResult := none }

/-- Query string built from the required parameters by URLSearchParams. -/
def buildQS (required : List String) (q : List (String × String)) : String :=
  joinWith ("&") (required.map (fun p => p ++ ("=") ++ uspEncode (getQueryD q p)))

/-- Error body shared by both fetchFromNewAPIWithMultipleParams variants:
status from the upstream response when truthy (500 otherwise), fixed
message, detalle the upstream payload or the error message. -/
def multiParamsErr (e : UpstreamError) : Nat × JSValue :=
  let sc : Nat :=
    match e.response with
    | some r => if r.status = 0 then 500 else r.status
    | none => 500
  let det : JSValue :=
    match e.response with
    | some r => if truthy r.data then r.data else .jstr e.message
    | none => .jstr e.message
  (sc, .jobj [(("success"), .jbool false),
              (("message"), .jstr ("Error en la consulta")),
              (("detalle"), det)])

/-- Embeds fetchFromNewAPIWithMultipleParams of src/index.js: validate the
required parameters, compose the composite key and value, check the
cache, then fetch and persist the raw text. -/
def fetchFromNewAPIWithMultipleParams_index (parse : String → Option JSValue)
    (store : StoreState) (base ep ap : String) (q : List (String × String))
    (required : List String) (fetch : FetchOutcome) (env : PersistEnv) : HandleResult :=
  let missing := required.filter (fun p => !queryTruthy q p)
  if missing.isEmpty then
    let paramKey := joinWith ("_") required
    let pv := joinWith ("_") (required.map (fun p => getQueryD q p))
    match cacheGate (checkStorageCache_index parse store ep paramKey pv) with
    | some v =>
      { status := 200, body := v, upstreamGets := 0, storeListings := listingsOf store,
        requestedUrl := none, persistResult := none }
    | none =>
      let url := base ++ ap ++ ("?") ++ buildQS required q
      match fetch with
      | .ok d =>
        { status := 200, body := d, upstreamGets := 1, storeListings := listingsOf store,
          requestedUrl := some url,
          persistResult := some (saveTextToStorage_run store env ep paramKey pv) }
      | .err e =>
        { status := (multiParamsErr e).1, body := (multiParamsErr e).2,
          upstreamGets := 1, storeListings := listingsOf store,
          requestedUrl := some url, persistResult := none }
  else
    { status := 400,
      body := .jobj [(("success"), .jbool false),
                     (("message"), .jstr (("Parámetros requeridos faltantes: ") ++ joinWith (", ") missing))],
      upstreamGets := 0, storeListings := 0, requestedUrl := none, persistResult := none }

/-- Embeds fetchFromNewAPIWithMultipleParams of part_000 (same structure,
part_000 cache lookup). -/
def fetchFromNewAPIWithMultipleParams_p0 (parse : String → Option JSValue)
    (store : StoreState) (base ep ap : String) (q : List (String × String))
    (required : List String) (fetch : FetchOutcome) (env : PersistEnv) : HandleResult :=
  let missing := required.filter (fun p => !queryTruthy q p)
  if missing.isEmpty then
    let paramKey := joinWith ("_") required
    let pv := joinWith ("_") (required.map (fun p => getQueryD q p))
    match cacheGate (checkStorageCache_p0 parse store ep paramKey pv) with
    | some v =>
      { status := 200, body := v, upstreamGets := 0, storeListings := listingsOf store,
        requestedUrl := none, persistResult := none }
    | none =>
      let url := base ++ ap ++ ("?") ++ buildQS required q
      match fetch with
      | .ok d =>
        { status := 200, body := d, upstreamGets := 1, storeListings := listingsOf store,
          requestedUrl := some url,
          persistResult := some (saveTextToStorage_run store env ep paramKey pv) }
      | .err e =>
        { status := (multiParamsErr e).1, body := (multiParamsErr e).2,
          upstreamGets := 1, storeListings := listingsOf store,
          requestedUrl := some url, persistResult := none }
  else
    { status := 400,
      body := .jobj [(("success"), .jbool false),
                     (("message"), .jstr (("Parámetros requeridos faltantes: ") ++ joinWith (", ") missing))],
      upstreamGets := 0, storeListings := 0, requestedUrl := none, persistResult := none }

/-! Spec-side definition for the cache-match claim (C4), written from the
claim's words for comparison with the source filters. -/

/-- Match predicate as the specification words it: the key or the stored
value contains the literal paramValue as a case-insensitive substring. -/
def claimMatchC4 (pv : String) (f : StoredFile) : Bool :=
  strIncludes (lowerStr f.name) (lowerStr pv) ||
  strIncludes (lowerStr f.content) (lowerStr pv)

/-! Concrete objects used by witnesses and counterexamples. -/

/-- External decoder that fails on every payload (JSON.parse rejecting
the input at hand). -/
def parseNone : String → Option JSValue :=
  fun _ => none

def envSample : PersistEnv :=
  { writeOk := true, downloadOk := true, now := 0 }

/-- Cached object whose key embeds timestamp 100 but whose store-recorded
creation time is older. -/
def fileA : StoredFile :=
  { name := ("consultas/dni/dni_1_100.json"), timeCreated := 100, content := ("x") }

/-- Cached object whose key embeds the older timestamp 50 but whose
store-recorded creation time is the latest. -/
def fileB : StoredFile :=
  { name := ("consultas/dni/dni_1_50.json"), timeCreated := 200, content := ("y") }

def storeAB : StoreState :=
  .avail [fileA, fileB]

/-- Cached object whose stored value contains the parameter value while
its key does not. -/
def cfile : StoredFile :=
  { name := ("consultas/dni/entry.json"), timeCreated := 7, content := ("ABC 12345") }

/-- Cached object whose payload looks like JSON but fails to decode. -/
def badJsonFile : StoredFile :=
  { name := ("consultas/dni/dni_1_5.json"), timeCreated := 1, content := ("\x7boops") }

/-- Cached object whose payload is the JSON literal false. -/
def falsyFile : StoredFile :=
  { name := ("consultas/dni/dni_1_7.json"), timeCreated := 7, content := ("false") }

/-- Cached object whose payload is the JSON literal null — exactly what
saveTextToStorage writes when the upstream returns JSON null (typeof
null is object, and JSON.stringify of null is the string null). -/
def nullFile : StoredFile :=
  { name := ("consultas/dni/dni_1_8.json"), timeCreated := 8, content := ("null") }

/-- Concrete instance of the external JSON decoder at the literals the
counterexamples exercise: JSON.parse of false is the boolean false and
JSON.parse of null is null; every other payload fails. -/
def parseFalsy : String → Option JSValue :=
  fun s =>
    if s = ("false") then some (.jbool false)
    else if s = ("null") then some .jnull
    else none

/-- Upstream connection timeout: no response, ECONNABORTED. -/
def errTimeout : UpstreamError :=
  { response := none, code := some ("ECONNABORTED"), message := ("timeout of 30000ms exceeded") }

/-- Upstream DNS failure: no response, ENOTFOUND. -/
def errDns : UpstreamError :=
  { response := none, code := some ("ENOTFOUND"), message := ("getaddrinfo ENOTFOUND api.example") }

/-- Upstream 404 with a detail payload. -/
def err404 : UpstreamError :=
  { response := some { status := 404, data := .jobj [(("message"), .jstr ("no encontrado"))] },
    code := none, message := ("Request failed with status code 404") }

/-! Helper lemmas about the selection, parameter-choice and encoding
definitions. -/

theorem pickBest_start_le (t : List StoredFile) (best : StoredFile) :
    best.timeCreated ≤ (pickBest best t).timeCreated := by
  induction t generalizing best with
  | nil => exact Nat.le_refl _
  | cons g t ih =>
    simp only [pickBest]
    split
    · next h => exact Nat.le_trans (Nat.le_of_lt h) (ih g)
    · next _ => exact ih best

theorem pickBest_mem_le (t : List StoredFile) (best g : StoredFile) (hg : g ∈ t) :
    g.timeCreated ≤ (pickBest best t).timeCreated := by
  induction t generalizing best with
  | nil => cases hg
  | cons a t ih =>
    simp only [pickBest]
    rcases List.mem_cons.mp hg with rfl | hg2
    · split
      · next _ => exact pickBest_start_le t g
      · next h => exact Nat.le_trans (Nat.le_of_not_lt h) (pickBest_start_le t best)
    · exact ih _ hg2

theorem pickBest_mem (t : List StoredFile) (best : StoredFile) :
    pickBest best t = best ∨ pickBest best t ∈ t := by
  induction t generalizing best with
  | nil => left; rfl
  | cons a t ih =>
    simp only [pickBest]
    rcases ih (if a.timeCreated > best.timeCreated then a else best) with h | h
    · rw [h]
      split
      · next _ => right; exact List.mem_cons_self a t
      · next _ => left; rfl
    · right; exact List.mem_cons_of_mem a h

theorem pickLatest_spec (l : List StoredFile) (f : StoredFile) (h : pickLatest l = some f) :
    f ∈ l ∧ ∀ g ∈ l, g.timeCreated ≤ f.timeCreated := by
  cases l with
  | nil => cases h
  | cons a t =>
    simp only [pickLatest, Option.some.injEq] at h
    subst h
    refine ⟨?_, ?_⟩
    · rcases pickBest_mem t a with h | h
      · rw [h]; exact List.mem_cons_self a t
      · exact List.mem_cons_of_mem a h
    · intro g hg
      rcases List.mem_cons.mp hg with rfl | hg2
      · exact pickBest_start_le t g
      · exact pickBest_mem_le t a g hg2

theorem pickLatest_isSome_of_ne_nil (l : List StoredFile) (h : l ≠ []) :
    ∃ f, pickLatest l = some f := by
  cases l with
  | nil => exact absurd rfl h
  | cons a t => exact ⟨pickBest a t, rfl⟩

theorem pickLatest_ne_nil (l : List StoredFile) (f : StoredFile) (h : pickLatest l = some f) :
    l ≠ [] := by
  intro hl
  subst hl
  cases h

theorem listed_nonempty_of_pick (files : List StoredFile) (ep pv : String) (f : StoredFile)
    (h : pickLatest (matching_p0 files ep pv) = some f) :
    (listed_p0 files ep).isEmpty = false := by
  have hne := pickLatest_ne_nil _ _ h
  cases hl : listed_p0 files ep with
  | nil => exact absurd (by simp [matching_p0, hl]) hne
  | cons a t => rfl

theorem selectParam_eq_none (q : List (String × String)) (names : List String)
    (h : ∀ n ∈ names, queryTruthy q n = false) :
    selectParam q names = none := by
  induction names with
  | nil => rfl
  | cons a t ih =>
    have ha := h a (List.mem_cons_self a t)
    simp only [selectParam, ha, Bool.false_eq_true, if_false]
    exact ih (fun n hn => h n (List.mem_cons_of_mem a hn))

theorem selectParam_first (q : List (String × String)) (ns1 : List String) (n : String)
    (ns2 : List String) (h1 : ∀ m ∈ ns1, queryTruthy q m = false)
    (h2 : queryTruthy q n = true) :
    selectParam q (ns1 ++ n :: ns2) = some (n, getQueryD q n) := by
  induction ns1 with
  | nil => simp [selectParam, h2]
  | cons a t ih =>
    have ha := h1 a (List.mem_cons_self a t)
    simp only [List.cons_append, selectParam, ha, Bool.false_eq_true, if_false]
    exact ih (fun m hm => h1 m (List.mem_cons_of_mem a hm))

theorem char_toNat_lt (c : Char) : c.toNat < 1114112 := by
  have h : c.val.toNat.isValidChar := c.valid
  rcases h with h | ⟨_, h2⟩
  · exact Nat.lt_trans h (by norm_num)
  · exact h2

theorem utf8Bytes_lt (c : Char) : ∀ b ∈ utf8Bytes c, b < 256 := by
  intro b hb
  have hc := char_toNat_lt c
  by_cases h1 : c.toNat < 128
  · simp [utf8Bytes, h1] at hb
    omega
  · by_cases h2 : c.toNat < 2048
    · simp [utf8Bytes, h1, h2] at hb
      have d1 : c.toNat / 64 < 32 := (Nat.div_lt_iff_lt_mul (by norm_num)).mpr (by omega)
      have d2 : c.toNat % 64 < 64 := Nat.mod_lt _ (by norm_num)
      rcases hb with rfl | rfl <;> omega
    · by_cases h3 : c.toNat < 65536
      · simp [utf8Bytes, h1, h2, h3] at hb
        have d1 : c.toNat / 4096 < 16 := (Nat.div_lt_iff_lt_mul (by norm_num)).mpr (by omega)
        have d2 : (c.toNat / 64) % 64 < 64 := Nat.mod_lt _ (by norm_num)
        have d3 : c.toNat % 64 < 64 := Nat.mod_lt _ (by norm_num)
        rcases hb with rfl | rfl | rfl <;> omega
      · simp [utf8Bytes, h1, h2, h3] at hb
        have d1 : c.toNat / 262144 < 5 := (Nat.div_lt_iff_lt_mul (by norm_num)).mpr (by omega)
        have d2 : (c.toNat / 4096) % 64 < 64 := Nat.mod_lt _ (by norm_num)
        have d3 : (c.toNat / 64) % 64 < 64 := Nat.mod_lt _ (by norm_num)
        have d4 : c.toNat % 64 < 64 := Nat.mod_lt _ (by norm_num)
        rcases hb with rfl | rfl | rfl | rfl <;> omega

theorem hexDigit_alnum : ∀ n, n < 16 → (hexDigit n).isAlphanum = true := by decide

theorem percentByte_safe (b : Nat) (hb : b < 256) : ∀ c ∈ percentByte b, uriSafe c = true := by
  intro c hc
  have h1 : b / 16 < 16 := (Nat.div_lt_iff_lt_mul (by norm_num)).mpr (by omega)
  have h2 : b % 16 < 16 := Nat.mod_lt _ (by norm_num)
  simp only [percentByte, List.mem_cons, List.not_mem_nil, or_false] at hc
  rcases hc with rfl | rfl | rfl
  · decide
  · simp [uriSafe, isURIUnreserved, hexDigit_alnum _ h1]
  · simp [uriSafe, isURIUnreserved, hexDigit_alnum _ h2]

theorem encChar_safe (c : Char) : ∀ x ∈ encChar c, uriSafe x = true := by
  intro x hx
  unfold encChar at hx
  split at hx
  · next h =>
    simp only [List.mem_singleton] at hx
    subst hx
    simp [uriSafe, h]
  · next _ =>
    simp only [List.mem_flatten, List.mem_map] at hx
    obtain ⟨l, ⟨b, hb, rfl⟩, hxl⟩ := hx
    exact percentByte_safe b (utf8Bytes_lt c b hb) x hxl

theorem encodeURIComponent_safe (s : String) :
    ∀ c ∈ (encodeURIComponent s).data, uriSafe c = true := by
  intro c hc
  have hc2 : c ∈ (s.data.map encChar).flatten := hc
  simp only [List.mem_flatten, List.mem_map] at hc2
  obtain ⟨l, ⟨a, _, rfl⟩, hcl⟩ := hc2
  exact encChar_safe a c hcl

/-! Claim theorems. -/

/-- C1 counterexample: a matching cached entry whose payload decodes to
a falsy value.  With payload false the src/index.js lookup returns the
decoded boolean false — a matching entry — yet the coordinator issues
one upstream GET and answers with the fresh result, not the cached one;
with payload null (which the persister itself writes when the upstream
returns JSON null) the lookup returns the null miss sentinel and one GET
is issued as well.  The claim asserts zero GETs and a cached response
for every returned matching entry. -/
theorem c1_counterexample_falsy_cache_value :
    matching_index [falsyFile] ("/dni") ("dni") ("1") = [falsyFile] ∧
    checkStorageCache_index parseFalsy (.avail [falsyFile]) ("/dni") ("dni") ("1") =
      some (.jbool false) ∧
    (handleWithCache_index parseFalsy (.avail [falsyFile]) ("B") ("/dni") ("/dni")
        ("dni") ("1") (.ok (.jstr ("fresh"))) envSample).upstreamGets = 1 ∧
    respOf (handleWithCache_index parseFalsy (.avail [falsyFile]) ("B") ("/dni") ("/dni")
        ("dni") ("1") (.ok (.jstr ("fresh"))) envSample) = (200, .jstr ("fresh")) ∧
    matching_index [nullFile] ("/dni") ("dni") ("1") = [nullFile] ∧
    parseFalsy nullFile.content = some .jnull ∧
    checkStorageCache_index parseFalsy (.avail [nullFile]) ("/dni") ("dni") ("1") = none ∧
    (handleWithCache_index parseFalsy (.avail [nullFile]) ("B") ("/dni") ("/dni")
        ("dni") ("1") (.ok (.jstr ("fresh"))) envSample).upstreamGets = 1 := by
  exact ⟨by decide, rfl, rfl, rfl, by decide, rfl, rfl, rfl⟩

/-- C1 (amended): for every valid logical request handled by the
coordinator (handleWithCache and fetchFromNewAPIWithMultipleParams,
both variants): when the cache lookup returns a matching entry whose
decoded value is truthy, the response is served from the cache and zero
upstream GETs are issued; a matching entry whose decoded value is falsy
fails the coordinator truthiness gate on the cached result and exactly
one upstream GET is issued, as when the lookup returns no entry — in
particular when the store is absent or failing, and when the payload
decodes to JSON null, which the source lookup already collapses into the
null miss sentinel. -/
theorem c1_cache_gating_truthy (parse : String → Option JSValue) (store : StoreState)
    (base ep ap pn pv : String) (fetch : FetchOutcome) (env : PersistEnv) (v : JSValue)
    (q : List (String × String)) (required : List String) :
    (checkStorageCache_index parse store ep pn pv = some v → truthy v = true →
      (handleWithCache_index parse store base ep ap pn pv fetch env).upstreamGets = 0 ∧
      respOf (handleWithCache_index parse store base ep ap pn pv fetch env) = (200, v)) ∧
    (checkStorageCache_index parse store ep pn pv = some v → truthy v = false →
      (handleWithCache_index parse store base ep ap pn pv fetch env).upstreamGets = 1) ∧
    (checkStorageCache_index parse store ep pn pv = none →
      (handleWithCache_index parse store base ep ap pn pv fetch env).upstreamGets = 1) ∧
    (store = .absent → checkStorageCache_index parse store ep pn pv = none) ∧
    (store = .failing → checkStorageCache_index parse store ep pn pv = none) ∧
    (checkStorageCache_p0 parse store ep pn pv = some v → truthy v = true →
      (handleWithCache_p0 parse store base ep ap pn pv fetch env).upstreamGets = 0 ∧
      respOf (handleWithCache_p0 parse store base ep ap pn pv fetch env) = (200, v)) ∧
    (checkStorageCache_p0 parse store ep pn pv = some v → truthy v = false →
      (handleWithCache_p0 parse store base ep ap pn pv fetch env).upstreamGets = 1) ∧
    (checkStorageCache_p0 parse store ep pn pv = none →
      (handleWithCache_p0 parse store base ep ap pn pv fetch env).upstreamGets = 1) ∧
    (store = .absent → checkStorageCache_p0 parse store ep pn pv = none) ∧
    (store = .failing → checkStorageCache_p0 parse store ep pn pv = none) ∧
    (required.filter (fun p => !queryTruthy q p) = [] →
      checkStorageCache_index parse store ep (joinWith ("_") required)
          (joinWith ("_") (required.map (fun p => getQueryD q p))) = some v →
      truthy v = true →
      (fetchFromNewAPIWithMultipleParams_index parse store base ep ap q required fetch env).upstreamGets = 0) ∧
    (required.filter (fun p => !queryTruthy q p) = [] →
      cacheGate (checkStorageCache_index parse store ep (joinWith ("_") required)
          (joinWith ("_") (required.map (fun p => getQueryD q p)))) = none →
      (fetchFromNewAPIWithMultipleParams_index parse store base ep ap q required fetch env).upstreamGets = 1) ∧
    (required.filter (fun p => !queryTruthy q p) = [] →
      checkStorageCache_p0 parse store ep (joinWith ("_") required)
          (joinWith ("_") (required.map (fun p => getQueryD q p))) = some v →
      truthy v = true →
      (fetchFromNewAPIWithMultipleParams_p0 parse store base ep ap q required fetch env).upstreamGets = 0) ∧
    (required.filter (fun p => !queryTruthy q p) = [] →
      cacheGate (checkStorageCache_p0 parse store ep (joinWith ("_") required)
          (joinWith ("_") (required.map (fun p => getQueryD q p)))) = none →
      (fetchFromNewAPIWithMultipleParams_p0 parse store base ep ap q required fetch env).upstreamGets = 1) := by
  refine ⟨?_, ?_, ?_, ?_, ?_, ?_, ?_, ?_, ?_, ?_, ?_, ?_, ?_, ?_⟩
  · intro h ht
    exact ⟨by simp [handleWithCache_index, cacheGate, h, ht],
           by simp [handleWithCache_index, cacheGate, h, ht, respOf]⟩
  · intro h ht
    cases fetch <;> simp [handleWithCache_index, cacheGate, h, ht]
  · intro h
    cases fetch <;> simp [handleWithCache_index, cacheGate, h]
  · intro h; subst h; rfl
  · intro h; subst h; rfl
  · intro h ht
    exact ⟨by simp [handleWithCache_p0, cacheGate, h, ht],
           by simp [handleWithCache_p0, cacheGate, h, ht, respOf]⟩
  · intro h ht
    cases fetch <;> simp [handleWithCache_p0, cacheGate, h, ht]
  · intro h
    cases fetch <;> simp [handleWithCache_p0, cacheGate, h]
  · intro h; subst h; rfl
  · intro h; subst h; rfl
  · intro hm hc ht
    simp [fetchFromNewAPIWithMultipleParams_index, hm, cacheGate, hc, ht]
  · intro hm hg
    cases fetch <;> simp [fetchFromNewAPIWithMultipleParams_index, hm, hg]
  · intro hm hc ht
    simp [fetchFromNewAPIWithMultipleParams_p0, hm, cacheGate, hc, ht]
  · intro hm hg
    cases fetch <;> simp [fetchFromNewAPIWithMultipleParams_p0, hm, hg]

/-- Witness for c1_cache_gating_truthy: a concrete truthy cache hit
issues no upstream GET; an absent store and a failing store each lead
to exactly one GET; the multi-parameter coordinator on a cold store
issues one GET. -/
theorem c1_cache_gating_truthy_witness :
    truthy (decode_index parseNone fileB) = true ∧
    (handleWithCache_index parseNone storeAB ("B") ("/dni") ("/dni") ("dni") ("1")
        (.ok .jnull) envSample).upstreamGets = 0 ∧
    (handleWithCache_index parseNone .absent ("B") ("/dni") ("/dni") ("dni") ("1")
        (.ok .jnull) envSample).upstreamGets = 1 ∧
    (handleWithCache_p0 parseNone .failing ("B") ("/dni") ("/dni") ("dni") ("1")
        (.ok .jnull) envSample).upstreamGets = 1 ∧
    (fetchFromNewAPIWithMultipleParams_index parseNone .absent ("B") ("/dni_nombres")
        ("/dni_nombres") [] [] (.ok .jnull) envSample).upstreamGets = 1 := by
  obtain ⟨a1, a2, a3, a4, a5, b1, b2, b3, b4, b5, m1, m2, m3, m4⟩ :=
    c1_cache_gating_truthy parseNone storeAB ("B") ("/dni") ("/dni") ("dni") ("1")
      (.ok .jnull) envSample (decode_index parseNone fileB) [] []
  obtain ⟨c1a, c2a, c3a, c4a, c5a, d1, d2, d3, d4, d5, n1, n2, n3, n4⟩ :=
    c1_cache_gating_truthy parseNone .absent ("B") ("/dni") ("/dni") ("dni") ("1")
      (.ok .jnull) envSample .jnull [] []
  obtain ⟨e1, e2, e3, e4, e5, g1, g2, g3, g4, g5, o1, o2, o3, o4⟩ :=
    c1_cache_gating_truthy parseNone .failing ("B") ("/dni") ("/dni") ("dni") ("1")
      (.ok .jnull) envSample .jnull [] []
  obtain ⟨p1, p2, p3, p4, p5, r1, r2, r3, r4, r5, s1, s2, s3, s4⟩ :=
    c1_cache_gating_truthy parseNone .absent ("B") ("/dni_nombres") ("/dni_nombres")
      ("") ("") (.ok .jnull) envSample .jnull [] []
  exact ⟨by decide, (a1 rfl (by decide)).1, c3a (c4a rfl), g3 (g5 rfl), s2 rfl (by rfl)⟩

/-- C2: when the upstream fetch succeeds the client receives status 200
with exactly the raw upstream payload, and the response (status and
body) is the same whatever the outcome of the persistence run scheduled
afterwards: no persistence outcome ever changes it. -/
theorem c2_response_independent_of_persistence (parse : String → Option JSValue)
    (store : StoreState) (base ep ap pn pv : String) (fetch : FetchOutcome)
    (env env2 : PersistEnv) (d : JSValue) :
    respOf (handleWithCache_index parse store base ep ap pn pv fetch env) =
      respOf (handleWithCache_index parse store base ep ap pn pv fetch env2) ∧
    respOf (handleWithCache_p0 parse store base ep ap pn pv fetch env) =
      respOf (handleWithCache_p0 parse store base ep ap pn pv fetch env2) ∧
    (checkStorageCache_index parse store ep pn pv = none →
      respOf (handleWithCache_index parse store base ep ap pn pv (.ok d) env) = (200, d)) ∧
    (checkStorageCache_p0 parse store ep pn pv = none →
      respOf (handleWithCache_p0 parse store base ep ap pn pv (.ok d) env) = (200, d)) := by
  refine ⟨?_, ?_, ?_, ?_⟩
  · cases h : cacheGate (checkStorageCache_index parse store ep pn pv) <;> cases fetch <;>
      simp [handleWithCache_index, h, respOf]
  · cases h : cacheGate (checkStorageCache_p0 parse store ep pn pv) <;> cases fetch <;>
      simp [handleWithCache_p0, h, respOf]
  · intro h
    simp [handleWithCache_index, cacheGate, h, respOf]
  · intro h
    simp [handleWithCache_p0, cacheGate, h, respOf]

/-- Witness for c2_response_independent_of_persistence: on a cold store
a successful fetch is answered 200 with the raw payload, in both
variants, and with a persistence environment whose write fails the
response is unchanged. -/
theorem c2_response_witness :
    respOf (handleWithCache_index parseNone .absent ("B") ("/dni") ("/dni") ("dni") ("1")
        (.ok (.jstr ("ok"))) envSample) = (200, .jstr ("ok")) ∧
    respOf (handleWithCache_p0 parseNone .absent ("B") ("/dni") ("/dni") ("dni") ("1")
        (.ok (.jstr ("ok"))) envSample) = (200, .jstr ("ok")) ∧
    respOf (handleWithCache_index parseNone .absent ("B") ("/dni") ("/dni") ("dni") ("1")
        (.ok (.jstr ("ok"))) envSample) =
      respOf (handleWithCache_index parseNone .absent ("B") ("/dni") ("/dni") ("dni") ("1")
        (.ok (.jstr ("ok"))) { writeOk := false, downloadOk := false, now := 9 }) := by
  obtain ⟨h1, h2, h3, h4⟩ :=
    c2_response_independent_of_persistence parseNone .absent ("B") ("/dni") ("/dni")
      ("dni") ("1") (.ok (.jstr ("ok"))) envSample
      { writeOk := false, downloadOk := false, now := 9 } (.jstr ("ok"))
  exact ⟨h3 rfl, h4 rfl, h1⟩

/-- C3 counterexample: the upstream result is an http string whose
lowercased form contains the webp image extension, yet the src/index.js
classifier persists it as JSON url metadata, not as media: its image
test has no webp alternative. -/
theorem c3_counterexample_webp_not_media :
    jsStartsWith ("https://x.test/img.webp") ("http") = true ∧
    strIncludes (lowerStr ("https://x.test/img.webp")) (".webp") = true ∧
    classify_index (.jstr ("https://x.test/img.webp")) =
      .saveText (.jobj [(("url"), .jstr ("https://x.test/img.webp"))]) ∧
    classify_index (.jstr ("https://x.test/img.webp")) ≠
      .saveMedia ("https://x.test/img.webp") ("image") := by
  refine ⟨by decide, by decide, rfl, ?_⟩
  intro h
  rw [show classify_index (.jstr ("https://x.test/img.webp")) =
      .saveText (.jobj [(("url"), .jstr ("https://x.test/img.webp"))]) from rfl] at h
  cases h

/-- C3 (amended): classification order of a fresh upstream result.  In
both variants: a map or array persists as JSON; an http string passing
the image test is persisted as media; otherwise an http string
containing .pdf is persisted as pdf media; any other http string
persists as JSON url metadata; any other string persists as JSON text.
The image test of src/index.js is substring containment of .jpg, .jpeg,
.png, .gif only (webp is absent and a webp URL falls to the url-metadata
path); the image test of part_000 also accepts .webp and anchors the
extension at a question mark or the end of the string.  Media extensions
for the spec examples: png for an img.png URL (both variants), pdf for a
doc.pdf URL. -/
theorem c3_classifier_rules :
    (∀ fl, classify_index (.jobj fl) = .saveText (.jobj fl)) ∧
    (∀ l, classify_index (.jarr l) = .saveText (.jarr l)) ∧
    (∀ s, jsStartsWith s ("http") = true → imgTest_index (lowerStr s) = true →
      classify_index (.jstr s) = .saveMedia s ("image")) ∧
    (∀ s, jsStartsWith s ("http") = true → imgTest_index (lowerStr s) = false →
      strIncludes (lowerStr s) (".pdf") = true →
      classify_index (.jstr s) = .saveMedia s ("pdf")) ∧
    (∀ s, jsStartsWith s ("http") = true → imgTest_index (lowerStr s) = false →
      strIncludes (lowerStr s) (".pdf") = false →
      classify_index (.jstr s) = .saveText (.jobj [(("url"), .jstr s)])) ∧
    (∀ s, jsStartsWith s ("http") = false →
      classify_index (.jstr s) = .saveText (.jobj [(("text"), .jstr s)])) ∧
    imgTest_index (lowerStr ("https://x.test/img.webp")) = false ∧
    (∀ fl, classify_p0 (.jobj fl) = .saveText (.jobj fl)) ∧
    (∀ l, classify_p0 (.jarr l) = .saveText (.jarr l)) ∧
    (∀ s, jsStartsWith s ("http") = true → imgTest_p0 (lowerStr s) = true →
      classify_p0 (.jstr s) = .saveMedia s ("image")) ∧
    (∀ s, jsStartsWith s ("http") = true → imgTest_p0 (lowerStr s) = false →
      strIncludes (lowerStr s) (".pdf") = true →
      classify_p0 (.jstr s) = .saveMedia s ("pdf")) ∧
    (∀ s, jsStartsWith s ("http") = true → imgTest_p0 (lowerStr s) = false →
      strIncludes (lowerStr s) (".pdf") = false →
      classify_p0 (.jstr s) = .saveText (.jobj [(("url"), .jstr s)])) ∧
    (∀ s, jsStartsWith s ("http") = false →
      classify_p0 (.jstr s) = .saveText (.jobj [(("text"), .jstr s)])) ∧
    imgTest_p0 (lowerStr ("https://x.test/img.webp")) = true ∧
    mediaExt_index ("https://x.test/img.png") ("image") = ("png") ∧
    mediaExt_p0 ("https://x.test/img.png") = ("png") ∧
    mediaExt_p0 ("https://x.test/doc.pdf") = ("pdf") := by
  refine ⟨fun fl => rfl, fun l => rfl, ?_, ?_, ?_, ?_, by decide,
          fun fl => rfl, fun l => rfl, ?_, ?_, ?_, ?_, by decide, rfl, rfl, rfl⟩
  · intro s h1 h2
    simp [classify_index, typeofIsObject, h1, h2]
  · intro s h1 h2 h3
    simp [classify_index, typeofIsObject, h1, h2, h3]
  · intro s h1 h2 h3
    simp [classify_index, typeofIsObject, h1, h2, h3]
  · intro s h1
    simp [classify_index, typeofIsObject, h1]
  · intro s h1 h2
    simp [classify_p0, typeofIsObject, h1, h2]
  · intro s h1 h2 h3
    simp [classify_p0, typeofIsObject, h1, h2, h3]
  · intro s h1 h2 h3
    simp [classify_p0, typeofIsObject, h1, h2, h3]
  · intro s h1
    simp [classify_p0, typeofIsObject, h1]

/-- Witness for c3_classifier_rules: the spec examples evaluated — an
img.png URL is classified as image media in both variants, a webp URL is
image media in part_000, and a plain string becomes JSON text. -/
theorem c3_classifier_rules_witness :
    classify_index (.jstr ("https://x.test/img.png")) =
      .saveMedia ("https://x.test/img.png") ("image") ∧
    classify_p0 (.jstr ("https://x.test/img.webp")) =
      .saveMedia ("https://x.test/img.webp") ("image") ∧
    classify_index (.jstr ("hello")) = .saveText (.jobj [(("text"), .jstr ("hello"))]) ∧
    classify_p0 (.jstr ("https://x.test/doc.pdf")) =
      .saveMedia ("https://x.test/doc.pdf") ("pdf") := by
  obtain ⟨h1, h2, h3, h4, h5, h6, h7, h8, h9, h10, h11, h12, h13, h14, h15, h16, h17⟩ :=
    c3_classifier_rules
  exact ⟨h3 ("https://x.test/img.png") (by decide) (by decide),
         h10 ("https://x.test/img.webp") (by decide) (by decide),
         h6 ("hello") (by decide),
         h11 ("https://x.test/doc.pdf") (by decide) (by decide) (by decide)⟩

/-- C4 counterexample: a stored object whose payload contains the
parameter value while its key does not.  The claim's key-or-value
case-insensitive test accepts it, but both source filters reject it, and
both cache lookups miss. -/
theorem c4_counterexample_value_never_examined :
    claimMatchC4 ("12345") cfile = true ∧
    codeMatch_index ("dni") ("12345") cfile = false ∧
    codeMatch_p0 ("12345") cfile = false ∧
    checkStorageCache_index parseNone (.avail [cfile]) ("/dni") ("dni") ("12345") = none ∧
    checkStorageCache_p0 parseNone (.avail [cfile]) ("/dni") ("dni") ("12345") = none := by
  exact ⟨by decide, by decide, by decide, rfl, rfl⟩

/-- C4 (amended): the cache-lookup filter tests the object key (file
name) only and never the stored value: substituting any other payload
leaves both filters unchanged.  The part_000 filter is case-insensitive
containment of paramValue in the key; the src/index.js filter is
case-sensitive containment of paramName_paramValue_ or of paramValue in
the key. -/
theorem c4_match_is_key_only (pn pv nm c c2 : String) (t : Nat) :
    codeMatch_index pn pv { name := nm, timeCreated := t, content := c } =
      codeMatch_index pn pv { name := nm, timeCreated := t, content := c2 } ∧
    codeMatch_p0 pv { name := nm, timeCreated := t, content := c } =
      codeMatch_p0 pv { name := nm, timeCreated := t, content := c2 } ∧
    codeMatch_p0 pv { name := nm, timeCreated := t, content := c } =
      strIncludes (lowerStr nm) (lowerStr pv) ∧
    codeMatch_index pn pv { name := nm, timeCreated := t, content := c } =
      (strIncludes nm (pn ++ ("_") ++ pv ++ ("_")) || strIncludes nm pv) := by
  exact ⟨rfl, rfl, rfl, rfl⟩

/-- C5: for a non-empty set of matching cached objects, both cache
lookups proceed with the object whose store-recorded creation time
(metadata.timeCreated) is maximal among the matches — the selection the
source implements by a stable descending sort on timeCreated followed by
taking the first element — and the lookup result is the decode of
exactly that object (in src/index.js with a decoded JSON null collapsed
into the null miss sentinel, as in the source); an empty match set
yields absent. -/
theorem c5_latest_created_selected (parse : String → Option JSValue)
    (files : List StoredFile) (ep pn pv : String) :
    (matching_index files ep pn pv = [] →
      checkStorageCache_index parse (.avail files) ep pn pv = none) ∧
    (∀ f, pickLatest (matching_index files ep pn pv) = some f →
      f ∈ matching_index files ep pn pv ∧
      (∀ g ∈ matching_index files ep pn pv, g.timeCreated ≤ f.timeCreated) ∧
      checkStorageCache_index parse (.avail files) ep pn pv =
        nullToNone (decode_index parse f)) ∧
    (matching_index files ep pn pv ≠ [] →
      ∃ f, pickLatest (matching_index files ep pn pv) = some f) ∧
    (matching_p0 files ep pv = [] →
      checkStorageCache_p0 parse (.avail files) ep pn pv = none) ∧
    (∀ f, pickLatest (matching_p0 files ep pv) = some f →
      f ∈ matching_p0 files ep pv ∧
      (∀ g ∈ matching_p0 files ep pv, g.timeCreated ≤ f.timeCreated) ∧
      checkStorageCache_p0 parse (.avail files) ep pn pv = decode_p0 parse f) ∧
    (matching_p0 files ep pv ≠ [] →
      ∃ f, pickLatest (matching_p0 files ep pv) = some f) := by
  refine ⟨?_, ?_, ?_, ?_, ?_, ?_⟩
  · intro h
    simp [checkStorageCache_index, h, pickLatest]
  · intro f hf
    have hs := pickLatest_spec _ _ hf
    exact ⟨hs.1, hs.2, by simp [checkStorageCache_index, hf]⟩
  · exact fun h => pickLatest_isSome_of_ne_nil _ h
  · intro h
    by_cases he : (listed_p0 files ep).isEmpty
    · simp [checkStorageCache_p0, he]
    · simp [checkStorageCache_p0, he, h, pickLatest]
  · intro f hf
    have hs := pickLatest_spec _ _ hf
    have he := listed_nonempty_of_pick files ep pv f hf
    exact ⟨hs.1, hs.2, by simp [checkStorageCache_p0, he, hf]⟩
  · exact fun h => pickLatest_isSome_of_ne_nil _ h

/-- Witness for c5_latest_created_selected: two cached objects whose
key-embedded timestamps order opposite to their store-recorded creation
times; the lookup selects the one with the later timeCreated (fileB,
whose key embeds the older timestamp 50). -/
theorem c5_latest_created_selected_witness :
    pickLatest (matching_index [fileA, fileB] ("/dni") ("dni") ("1")) = some fileB ∧
    checkStorageCache_index parseNone storeAB ("/dni") ("dni") ("1") =
      some (decode_index parseNone fileB) ∧
    checkStorageCache_p0 parseNone storeAB ("/dni") ("dni") ("1") =
      decode_p0 parseNone fileB := by
  refine ⟨by decide, ?_, ?_⟩
  · exact ((c5_latest_created_selected parseNone [fileA, fileB] ("/dni") ("dni") ("1")).2.1
      fileB (by decide)).2.2
  · exact ((c5_latest_created_selected parseNone [fileA, fileB] ("/dni") ("dni") ("1")).2.2.2.2.1
      fileB (by decide)).2.2

/-- C6 counterexample: an upstream connection timeout (ECONNABORTED,
no response) handled by the src/index.js coordinator yields status 500,
not the 504 the claim requires. -/
theorem c6_counterexample_timeout_is_500 :
    (handleWithCache_index parseNone .absent ("B") ("/dni") ("/dni") ("dni") ("1")
        (.err errTimeout) envSample).status = 500 ∧
    (handleWithCache_index parseNone .absent ("B") ("/dni") ("/dni") ("dni") ("1")
        (.err errTimeout) envSample).status ≠ 504 := by
  exact ⟨rfl, by decide⟩

/-- C6 (amended): on a failed upstream fetch both coordinators respond
with the body produced by their error mapping, with success false.  The
part_000 mapping returns the upstream status when a response is present,
504 on a connection timeout (ECONNABORTED), 503 on ENOTFOUND, and its
detalle preserves the upstream detail payload when that payload is
truthy.  The src/index.js mapping returns the upstream status when
present and 500 for every transport-level failure — it has no 504/503
mapping — and its detalle carries the upstream message field rather than
the whole payload. -/
theorem c6_error_mapping (parse : String → Option JSValue) (store : StoreState)
    (base ep ap pn pv : String) (e : UpstreamError) (r : ErrResponse) (env : PersistEnv) :
    (e.response = some r → (handleError_p0 ep pn pv e).1 = r.status) ∧
    (e.response = none → e.code = some ("ECONNABORTED") →
      (handleError_p0 ep pn pv e).1 = 504) ∧
    (e.response = none → e.code = some ("ENOTFOUND") →
      (handleError_p0 ep pn pv e).1 = 503) ∧
    (e.response = some r → truthy r.data = true →
      jsGetField (handleError_p0 ep pn pv e).2 ("detalle") = some r.data) ∧
    (e.response = some r → r.status ≠ 0 → (handleError_index e).1 = r.status) ∧
    (e.response = none → (handleError_index e).1 = 500) ∧
    jsGetField (handleError_index e).2 ("success") = some (.jbool false) ∧
    jsGetField (handleError_p0 ep pn pv e).2 ("success") = some (.jbool false) ∧
    (checkStorageCache_index parse store ep pn pv = none →
      (handleWithCache_index parse store base ep ap pn pv (.err e) env).status =
        (handleError_index e).1 ∧
      (handleWithCache_index parse store base ep ap pn pv (.err e) env).body =
        (handleError_index e).2) ∧
    (checkStorageCache_p0 parse store ep pn pv = none →
      (handleWithCache_p0 parse store base ep ap pn pv (.err e) env).status =
        (handleError_p0 ep pn pv e).1 ∧
      (handleWithCache_p0 parse store base ep ap pn pv (.err e) env).body =
        (handleError_p0 ep pn pv e).2) := by
  refine ⟨?_, ?_, ?_, ?_, ?_, ?_, ?_, ?_, ?_, ?_⟩
  · intro h
    simp [handleError_p0, h]
  · intro h1 h2
    simp [handleError_p0, h1, h2]
  · intro h1 h2
    simp [handleError_p0, h1, h2]
  · intro h ht
    simp [handleError_p0, h, ht, jsGetField, lookupField]
  · intro h hs
    simp [handleError_index, h, hs]
  · intro h
    simp [handleError_index, h]
  · simp [handleError_index, jsGetField, lookupField]
  · simp [handleError_p0, jsGetField, lookupField]
  · intro h
    exact ⟨by simp [handleWithCache_index, cacheGate, h],
           by simp [handleWithCache_index, cacheGate, h]⟩
  · intro h
    exact ⟨by simp [handleWithCache_p0, cacheGate, h],
           by simp [handleWithCache_p0, cacheGate, h]⟩

/-- Witness for c6_error_mapping: the part_000 mapping sends 504 for the
concrete timeout error and 503 for the DNS error; a concrete upstream
404 is propagated by the src/index.js mapping, and the part_000 detalle
field preserves the 404 detail payload. -/
theorem c6_error_mapping_witness :
    (handleError_p0 ("/dni") ("dni") ("1") errTimeout).1 = 504 ∧
    (handleError_p0 ("/dni") ("dni") ("1") errDns).1 = 503 ∧
    (handleError_index err404).1 = 404 ∧
    jsGetField (handleError_p0 ("/dni") ("dni") ("1") err404).2 ("detalle") =
      some (.jobj [(("message"), .jstr ("no encontrado"))]) := by
  refine ⟨?_, ?_, ?_, ?_⟩
  · exact (c6_error_mapping parseNone .absent ("B") ("/dni") ("/dni") ("dni") ("1")
      errTimeout { status := 0, data := .jnull } envSample).2.1 rfl rfl
  · exact (c6_error_mapping parseNone .absent ("B") ("/dni") ("/dni") ("dni") ("1")
      errDns { status := 0, data := .jnull } envSample).2.2.1 rfl rfl
  · exact (c6_error_mapping parseNone .absent ("B") ("/dni") ("/dni") ("dni") ("1")
      err404 { status := 404, data := .jobj [(("message"), .jstr ("no encontrado"))] }
      envSample).2.2.2.2.1 rfl (by decide)
  · exact (c6_error_mapping parseNone .absent ("B") ("/dni") ("/dni") ("dni") ("1")
      err404 { status := 404, data := .jobj [(("message"), .jstr ("no encontrado"))] }
      envSample).2.2.2.1 rfl rfl

/-- C7: a request on a configured route supplying none of the acceptable
parameter values (or, for a multi-required-parameter route, missing some
required parameter) is answered 400 with a body naming the acceptable or
missing parameters, with zero store listings, zero upstream GETs and no
persistence — in both variants. -/
theorem c7_validation_rejects_before_io (parse : String → Option JSValue)
    (store : StoreState) (base ep ap : String) (q : List (String × String))
    (names required : List String) (fetch : FetchOutcome) (env : PersistEnv) :
    ((∀ n ∈ names, queryTruthy q n = false) →
      fetchFromNewAPIWithMultipleParamNames_index parse store base ep ap q names fetch env =
        { status := 400,
          body := .jobj [(("success"), .jbool false),
                         (("message"), .jstr (("Se requiere uno de los siguientes parámetros: ") ++ joinWith (", ") names))],
          upstreamGets := 0, storeListings := 0, requestedUrl := none, persistResult := none } ∧
      fetchFromNewAPIWithMultipleParamNames_p0 parse store base ep ap q names fetch env =
        { status := 400,
          body := .jobj [(("success"), .jbool false),
                         (("message"), .jstr (("Se requiere uno de los siguientes parámetros: ") ++ joinWith (", ") names))],
          upstreamGets := 0, storeListings := 0, requestedUrl := none, persistResult := none }) ∧
    ((∃ p ∈ required, queryTruthy q p = false) →
      fetchFromNewAPIWithMultipleParams_index parse store base ep ap q required fetch env =
        { status := 400,
          body := .jobj [(("success"), .jbool false),
                         (("message"), .jstr (("Parámetros requeridos faltantes: ") ++ joinWith (", ") (required.filter (fun p => !queryTruthy q p))))],
          upstreamGets := 0, storeListings := 0, requestedUrl := none, persistResult := none } ∧
      fetchFromNewAPIWithMultipleParams_p0 parse store base ep ap q required fetch env =
        { status := 400,
          body := .jobj [(("success"), .jbool false),
                         (("message"), .jstr (("Parámetros requeridos faltantes: ") ++ joinWith (", ") (required.filter (fun p => !queryTruthy q p))))],
          upstreamGets := 0, storeListings := 0, requestedUrl := none, persistResult := none }) := by
  constructor
  · intro h
    have hs := selectParam_eq_none q names h
    exact ⟨by simp [fetchFromNewAPIWithMultipleParamNames_index, hs],
           by simp [fetchFromNewAPIWithMultipleParamNames_p0, hs]⟩
  · rintro ⟨p, hp, hf⟩
    have hmem : p ∈ required.filter (fun x => !queryTruthy q x) :=
      List.mem_filter.mpr ⟨hp, by simp [hf]⟩
    have hne : required.filter (fun x => !queryTruthy q x) ≠ [] :=
      List.ne_nil_of_mem hmem
    have hie : (required.filter (fun x => !queryTruthy q x)).isEmpty = false := by
      cases hl : required.filter (fun x => !queryTruthy q x) with
      | nil => exact absurd hl hne
      | cons a t => rfl
    exact ⟨by simp [fetchFromNewAPIWithMultipleParams_index, hie],
           by simp [fetchFromNewAPIWithMultipleParams_p0, hie]⟩

/-- Witness for c7_validation_rejects_before_io: a one-of route called
with an empty query is rejected 400 naming dni and query with no store
or upstream interaction; a two-required-parameter route missing both is
rejected 400 naming them. -/
theorem c7_validation_witness :
    fetchFromNewAPIWithMultipleParamNames_index parseNone (.avail [fileA]) ("B")
        ("/osiptel") ("/osiptel") [] [("dni"), ("query")] (.ok .jnull) envSample =
      { status := 400,
        body := .jobj [(("success"), .jbool false),
                       (("message"), .jstr ("Se requiere uno de los siguientes parámetros: dni, query"))],
        upstreamGets := 0, storeListings := 0, requestedUrl := none, persistResult := none } ∧
    fetchFromNewAPIWithMultipleParams_index parseNone (.avail [fileA]) ("B")
        ("/dni_nombres") ("/dni_nombres") [] [("apepaterno"), ("apematerno")]
        (.ok .jnull) envSample =
      { status := 400,
        body := .jobj [(("success"), .jbool false),
                       (("message"), .jstr ("Parámetros requeridos faltantes: apepaterno, apematerno"))],
        upstreamGets := 0, storeListings := 0, requestedUrl := none, persistResult := none } := by
  have h := c7_validation_rejects_before_io parseNone (.avail [fileA]) ("B")
      ("/osiptel") ("/osiptel") [] [("dni"), ("query")] [("apepaterno"), ("apematerno")]
      (.ok .jnull) envSample
  have h2 := c7_validation_rejects_before_io parseNone (.avail [fileA]) ("B")
      ("/dni_nombres") ("/dni_nombres") [] [("dni"), ("query")]
      [("apepaterno"), ("apematerno")] (.ok .jnull) envSample
  exact ⟨(h.1 (by decide)).1, (h2.2 ⟨("apepaterno"), by decide, by decide⟩).1⟩

/-- C8 counterexample: with the parameter value a-space-b, the single
GET issued by the src/index.js coordinator on a cache miss carries the
raw space, not the percent-encoded form encodeURIComponent produces. -/
theorem c8_counterexample_raw_interpolation :
    (handleWithCache_index parseNone .absent ("B") ("/dni") ("/dni") ("dni") ("a b")
        (.ok .jnull) envSample).requestedUrl = some (("B/dni?dni=a b")) ∧
    encodeURIComponent ("a b") = ("a%20b") ∧
    (("B/dni?dni=a b") : String) ≠ ("B/dni?dni=a%20b") := by
  exact ⟨rfl, rfl, by decide⟩

/-- C8 (amended): on a cache miss the single upstream GET has the form
base-path-questionmark-name-equals-value.  In part_000 the value is
percent-encoded with encodeURIComponent, whose output consists only of
unreserved characters and percent-escapes; in src/index.js the value is
interpolated raw, without encoding. -/
theorem c8_upstream_url_form (parse : String → Option JSValue) (store : StoreState)
    (base ep ap pn pv : String) (fetch : FetchOutcome) (env : PersistEnv) :
    (checkStorageCache_p0 parse store ep pn pv = none →
      (handleWithCache_p0 parse store base ep ap pn pv fetch env).requestedUrl =
        some (base ++ ap ++ ("?") ++ pn ++ ("=") ++ encodeURIComponent pv)) ∧
    (checkStorageCache_index parse store ep pn pv = none →
      (handleWithCache_index parse store base ep ap pn pv fetch env).requestedUrl =
        some (base ++ ap ++ ("?") ++ pn ++ ("=") ++ pv)) ∧
    (∀ c ∈ (encodeURIComponent pv).data, uriSafe c = true) ∧
    encodeURIComponent ("a b") = ("a%20b") := by
  refine ⟨?_, ?_, encodeURIComponent_safe pv, rfl⟩
  · intro h
    cases fetch <;> simp [handleWithCache_p0, cacheGate, h, buildUrl_p0]
  · intro h
    cases fetch <;> simp [handleWithCache_index, cacheGate, h, buildUrl_index]

/-- Witness for c8_upstream_url_form: the part_000 coordinator on a cold
store requests the URL with the space percent-encoded. -/
theorem c8_upstream_url_form_witness :
    (handleWithCache_p0 parseNone .absent ("B") ("/dni") ("/dni") ("dni") ("a b")
        (.ok .jnull) envSample).requestedUrl = some (("B/dni?dni=a%20b")) := by
  have h := (c8_upstream_url_form parseNone .absent ("B") ("/dni") ("/dni") ("dni")
      ("a b") (.ok .jnull) envSample).1 rfl
  exact h.trans (by decide)

/-- C9 counterexample: a cached object matching the request whose
payload looks like JSON but fails to decode makes the part_000 lookup
return absent (a cache miss, hence a fresh upstream call), not the
wrapped raw payload the claim requires. -/
theorem c9_counterexample_parse_failure_misses :
    matching_p0 [badJsonFile] ("/dni") ("1") = [badJsonFile] ∧
    jsonLead badJsonFile.content = true ∧
    parseNone badJsonFile.content = none ∧
    checkStorageCache_p0 parseNone (.avail [badJsonFile]) ("/dni") ("dni") ("1") = none := by
  exact ⟨by decide, by decide, rfl, rfl⟩

/-- C9 (amended): neither lookup ever throws on undecodable payloads,
but they degrade differently.  In src/index.js a decode failure returns
the raw payload wrapped as storageReference-plus-rawContent.  In
part_000 a payload that does not open with a brace or bracket is
returned wrapped (success, message, data, storageReference); a payload
that opens like JSON but fails to decode yields absent — the lookup
reports a cache miss instead of returning the raw payload. -/
theorem c9_decode_failure_paths (parse : String → Option JSValue)
    (files : List StoredFile) (ep pn pv : String) (f : StoredFile) :
    (pickLatest (matching_index files ep pn pv) = some f → parse f.content = none →
      checkStorageCache_index parse (.avail files) ep pn pv =
        some (.jobj [(("storageReference"), .jstr f.name), (("rawContent"), .jstr f.content)])) ∧
    (pickLatest (matching_p0 files ep pv) = some f → jsonLead f.content = false →
      checkStorageCache_p0 parse (.avail files) ep pn pv =
        some (.jobj [(("success"), .jbool true),
                     (("message"), .jstr ("Resultado desde caché")),
                     (("data"), .jstr f.content),
                     (("storageReference"), .jstr f.name)])) ∧
    (pickLatest (matching_p0 files ep pv) = some f → jsonLead f.content = true →
      parse f.content = none →
      checkStorageCache_p0 parse (.avail files) ep pn pv = none) := by
  refine ⟨?_, ?_, ?_⟩
  · intro h hp
    simp [checkStorageCache_index, h, decode_index, hp, nullToNone]
  · intro h hj
    have he := listed_nonempty_of_pick files ep pv f h
    simp [checkStorageCache_p0, he, h, decode_p0, hj]
  · intro h hj hp
    have he := listed_nonempty_of_pick files ep pv f h
    simp [checkStorageCache_p0, he, h, decode_p0, hj, hp]

/-- Witness for c9_decode_failure_paths: a cached object whose payload
x is not JSON — the src/index.js lookup returns it wrapped with the
storage reference, and the part_000 lookup returns its cached-text
wrapper. -/
theorem c9_decode_failure_witness :
    checkStorageCache_index parseNone (.avail [fileA]) ("/dni") ("dni") ("1") =
      some (.jobj [(("storageReference"), .jstr ("consultas/dni/dni_1_100.json")),
                   (("rawContent"), .jstr ("x"))]) ∧
    checkStorageCache_p0 parseNone (.avail [fileA]) ("/dni") ("dni") ("1") =
      some (.jobj [(("success"), .jbool true),
                   (("message"), .jstr ("Resultado desde caché")),
                   (("data"), .jstr ("x")),
                   (("storageReference"), .jstr ("consultas/dni/dni_1_100.json"))]) := by
  refine ⟨?_, ?_⟩
  · exact (c9_decode_failure_paths parseNone [fileA] ("/dni") ("dni") ("1") fileA).1
      (by decide) rfl
  · exact (c9_decode_failure_paths parseNone [fileA] ("/dni") ("dni") ("1") fileA).2.1
      (by decide) (by decide)

/-- C10: on a one-of-parameter route, when several acceptable parameters
carry truthy values the handler selects exactly the first one in the
declared order and behaves identically to the coordinator invoked with
that single name and value — for the cache lookup and the upstream GET
alike — silently ignoring every other supplied parameter, in both
variants. -/
theorem c10_first_truthy_param_wins (parse : String → Option JSValue)
    (store : StoreState) (base ep ap : String) (q : List (String × String))
    (fetch : FetchOutcome) (env : PersistEnv) (ns1 : List String) (n : String)
    (ns2 : List String) (h1 : ∀ m ∈ ns1, queryTruthy q m = false)
    (h2 : queryTruthy q n = true) :
    selectParam q (ns1 ++ n :: ns2) = some (n, getQueryD q n) ∧
    fetchFromNewAPIWithMultipleParamNames_index parse store base ep ap q
        (ns1 ++ n :: ns2) fetch env =
      handleWithCache_index parse store base ep ap n (getQueryD q n) fetch env ∧
    fetchFromNewAPIWithMultipleParamNames_p0 parse store base ep ap q
        (ns1 ++ n :: ns2) fetch env =
      handleWithCache_p0 parse store base ep ap n (getQueryD q n) fetch env := by
  have hs := selectParam_first q ns1 n ns2 h1 h2
  exact ⟨hs, by simp [fetchFromNewAPIWithMultipleParamNames_index, hs],
         by simp [fetchFromNewAPIWithMultipleParamNames_p0, hs]⟩

/-- Witness for c10_first_truthy_param_wins: with both dni and query
supplied, the handler equals the coordinator run with dni alone (query
is ignored), in both variants. -/
theorem c10_first_truthy_param_witness :
    fetchFromNewAPIWithMultipleParamNames_index parseNone .absent ("B") ("/osiptel")
        ("/osiptel") [(("dni"), ("11")), (("query"), ("22"))] [("dni"), ("query")]
        (.ok .jnull) envSample =
      handleWithCache_index parseNone .absent ("B") ("/osiptel") ("/osiptel")
        ("dni") ("11") (.ok .jnull) envSample ∧
    fetchFromNewAPIWithMultipleParamNames_p0 parseNone .absent ("B") ("/osiptel")
        ("/osiptel") [(("dni"), ("11")), (("query"), ("22"))] [("dni"), ("query")]
        (.ok .jnull) envSample =
      handleWithCache_p0 parseNone .absent ("B") ("/osiptel") ("/osiptel")
        ("dni") ("11") (.ok .jnull) envSample := by
  have h := c10_first_truthy_param_wins parseNone .absent ("B") ("/osiptel") ("/osiptel")
      [(("dni"), ("11")), (("query"), ("22"))] (.ok .jnull) envSample [] ("dni")
      [("query")] (by decide) (by decide)
  exact ⟨h.2.1, h.2.2⟩
